import Mathlib

/-!
# Verification of the btrdb block-storage core (`internal/bstore/blockstore.go`)

A shallow embedding of the blockstore layer: versioned superblocks per
stream, the generation (write-transaction) commit protocol, the block
cache, the relocation-address allocator, and the datablock read path.

Machine integers (`uint64`) are modelled as `Nat` with an explicit
`% 2^64` wherever the source can overflow.  Fatal aborts (`lg.Panic*`)
are modelled as the `Fatal` error of an `Except`; returned Go errors are
modelled as explicit non-fatal result constructors.  Mutable state
(the storage provider, the cache) is passed explicitly.

Code of the repository that is not part of `blockstore.go` (the
`Superblock` methods, the serialized block formats, the cache internals
and the storage-provider backends) is modelled from the specification;
each such definition carries a doc comment starting `Modelled from the
spec:`.
-/

set_option maxHeartbeats 1000000

namespace BStore

/-- The `uint64` modulus. -/
def u64Mod : Nat := 2 ^ 64

/-- A 128-bit stream identifier (`uuid.UUID`), modelled as an opaque `Nat`. -/
abbrev UUID := Nat

/-- `const LatestGeneration = uint64(^(uint64(0)))`: the all-ones 64-bit value. -/
def LatestGeneration : Nat := 2 ^ 64 - 1

/-- A fatal abort (`lg.Panic` / `lg.Panicf` in the source): the
operation cannot continue and no normal value is produced. -/
inductive Fatal
| corruptSuperblock (id : UUID) (gen : Nat)
| superblockMismatch (id : UUID) (gen : Nat)
| rootResolutionFailure
| strangeDatablockType
deriving DecidableEq

/-- Modelled from the spec: the serialized form of a superblock is a
fixed-size binary record carrying the stream id, the generation number
and the root address. -/
structure SBBytes where
  uuid : UUID
  gen : Nat
  root : Nat
deriving DecidableEq

/-- The versioned root descriptor of one stream:
`{stream_id, generation_number, root_address}`. -/
structure Superblock where
  uuid : UUID
  gen : Nat
  root : Nat
deriving DecidableEq

/-- Modelled from the spec: `new(stream_id)`: generation 1, root unset
(the `NewSuperblock` constructor lives outside `blockstore.go`). -/
def NewSuperblock (id : UUID) : Superblock :=
  { uuid := id, gen := 1, root := 0 }

/-- Modelled from the spec: `clone_incremented()` copies all fields and
increments the generation number by 1 (a `uint64` increment). -/
def Superblock.CloneInc (s : Superblock) : Superblock :=
  { uuid := s.uuid, gen := (s.gen + 1) % u64Mod, root := s.root }

/-- Modelled from the spec: serialization writes the fixed-size record. -/
def Superblock.Serialize (s : Superblock) : SBBytes :=
  { uuid := s.uuid, gen := s.gen, root := s.root }

/-- Modelled from the spec: deserialization validates that the record's
stream id and generation number match what was requested, otherwise the
record is treated as corruption (fatal); on success it reconstructs the
superblock. -/
def DeserializeSuperblock (id : UUID) (gen : Nat) (b : SBBytes) :
    Except Fatal Superblock :=
  if b.uuid = id ∧ b.gen = gen then
    Except.ok { uuid := id, gen := gen, root := b.root }
  else
    Except.error (Fatal.superblockMismatch id gen)

/-- Modelled from the spec: a stored block payload is prefixed with a
type discriminant distinguishing core and vector blocks; the payload
body is opaque to this layer.  `other` covers every unrecognized
discriminant (including absent/malformed reads, which the provider
surfaces as garbage bytes). -/
inductive Payload
| core (data : Nat)
| vector (data : Nat)
| other (tag : Nat)
deriving DecidableEq

/-- The result of inspecting a payload's type discriminant. -/
inductive BlockType
| Core
| Vector
| Bad (tag : Nat)
deriving DecidableEq

/-- Modelled from the spec: `DatablockGetBufferType` inspects the type
discriminant at the head of the payload. -/
def DatablockGetBufferType : Payload → BlockType
| .core _ => .Core
| .vector _ => .Vector
| .other t => .Bad t

/-- A core (internal-node) block.  `Identifier`, `Generation`,
`PointWidth`, `StartTime` are the contextual attributes named in
`blockstore.go`; the type-specific content is the opaque `payload`. -/
structure Coreblock where
  Identifier : Nat
  Generation : Nat
  PointWidth : Nat
  StartTime : Int
  payload : Nat
deriving DecidableEq

/-- A vector (leaf-node) block, with the same contextual attributes. -/
structure Vectorblock where
  Identifier : Nat
  Generation : Nat
  PointWidth : Nat
  StartTime : Int
  payload : Nat
deriving DecidableEq

/-- Modelled from the spec: deserializing a core block reconstructs the
type-specific payload; positional metadata (`Identifier`, `Generation`,
`PointWidth`, `StartTime`) is not persisted in the serialized form, so
the deserializer leaves it zeroed. -/
def Coreblock.DeserializeBuf (b : Payload) : Coreblock :=
  match b with
  | .core p => { Identifier := 0, Generation := 0, PointWidth := 0, StartTime := 0, payload := p }
  | _ => { Identifier := 0, Generation := 0, PointWidth := 0, StartTime := 0, payload := 0 }

/-- Modelled from the spec: vector-block deserialization, as for
`Coreblock.DeserializeBuf`. -/
def Vectorblock.DeserializeBuf (b : Payload) : Vectorblock :=
  match b with
  | .vector p => { Identifier := 0, Generation := 0, PointWidth := 0, StartTime := 0, payload := p }
  | _ => { Identifier := 0, Generation := 0, PointWidth := 0, StartTime := 0, payload := 0 }

/-- The `Datablock` interface: a decoded block is either a core block or
a vector block. -/
inductive Datablock
| core (c : Coreblock)
| vector (v : Vectorblock)
deriving DecidableEq

def Datablock.Identifier : Datablock → Nat
| .core c => c.Identifier
| .vector v => v.Identifier

def Datablock.Generation : Datablock → Nat
| .core c => c.Generation
| .vector v => v.Generation

def Datablock.PointWidth : Datablock → Nat
| .core c => c.PointWidth
| .vector v => v.PointWidth

def Datablock.StartTime : Datablock → Int
| .core c => c.StartTime
| .vector v => v.StartTime

/-- A provider call visible to readers, recorded in order so that the
commit protocol's write-before-publish ordering can be stated. -/
inductive Event
| writeSuperBlock (id : UUID) (gen : Nat)
| setStreamVersion (id : UUID) (gen : Nat)
deriving DecidableEq

/-- Modelled from the spec: the storage-provider capability set.
`version` is `get_stream_version` (0 means the stream has no committed
generation), `superblocks` is the per-`(stream, generation)` superblock
record store, `blocks` is the flat address space of block payloads, and
`events` is the chronological log of superblock/version calls. -/
structure StorageProvider where
  version : UUID → Nat
  superblocks : UUID → Nat → Option SBBytes
  blocks : Nat → Payload
  events : List Event

/-- `get_stream_version(stream_id) -> generation_number`. -/
def StorageProvider.GetStreamVersion (st : StorageProvider) (id : UUID) : Nat :=
  st.version id

/-- `read_superblock(stream_id, generation_number, buffer) -> bytes | nil`. -/
def StorageProvider.ReadSuperBlock (st : StorageProvider) (id : UUID) (gen : Nat) :
    Option SBBytes :=
  st.superblocks id gen

/-- `write_superblock(stream_id, generation_number, bytes)`. -/
def StorageProvider.WriteSuperBlock (st : StorageProvider) (id : UUID) (gen : Nat)
    (b : SBBytes) : StorageProvider :=
  { st with
    superblocks := fun i g => if i = id ∧ g = gen then some b else st.superblocks i g
    events := st.events ++ [Event.writeSuperBlock id gen] }

/-- `set_stream_version(stream_id, generation_number)`: the publication
primitive. -/
def StorageProvider.SetStreamVersion (st : StorageProvider) (id : UUID) (gen : Nat) :
    StorageProvider :=
  { st with
    version := fun i => if i = id then gen else st.version i
    events := st.events ++ [Event.setStreamVersion id gen] }

/-- `read(stream_id, address, buffer) -> bytes`: the flat block address
space. -/
def StorageProvider.Read (st : StorageProvider) (addr : Nat) : Payload :=
  st.blocks addr

/-- `func (bs *BlockStore) LoadSuperblock(id uuid.UUID, generation uint64) *Superblock`:
returns `none` for a never-written stream, resolves the `LatestGeneration`
sentinel by equality, returns `none` for a generation beyond the latest,
panics when a generation the version index claims to exist has no
readable bytes, and propagates the deserializer's validation panic. -/
def LoadSuperblock (st : StorageProvider) (id : UUID) (generation : Nat) :
    Except Fatal (Option Superblock) :=
  let latestGen := st.GetStreamVersion id
  if latestGen = 0 then
    Except.ok none
  else
    let generation := if generation = LatestGeneration then latestGen else generation
    if generation > latestGen then
      Except.ok none
    else
      match st.ReadSuperBlock id generation with
      | none => Except.error (Fatal.corruptSuperblock id generation)
      | some sbarr =>
        match DeserializeSuperblock id generation sbarr with
        | Except.error f => Except.error f
        | Except.ok sb => Except.ok (some sb)

/-- A generation: all the information acquired during a write pass
(`Cur_SB`, `New_SB`, the allocated block lists, and the `flushed` flag).
The `blockstore` back-pointer of the source is replaced by explicit
state passing; the per-stream write lock is a concurrency device with no
bearing on the sequential claims. -/
structure Generation where
  Cur_SB : Superblock
  New_SB : Superblock
  cblocks : List Coreblock
  vblocks : List Vectorblock
  flushed : Bool

/-- `func (g *Generation) UpdateRootAddr(addr uint64)`. -/
def Generation.UpdateRootAddr (g : Generation) (addr : Nat) : Generation :=
  { g with New_SB := { g.New_SB with root := addr } }

/-- `func (g *Generation) Number() uint64`. -/
def Generation.Number (g : Generation) : Nat :=
  g.New_SB.gen

/-- `func (bs *BlockStore) ObtainGeneration(id uuid.UUID) *Generation`:
if the stream version is 0 a fresh superblock is synthesized, otherwise
the current superblock is loaded (panicking if its bytes are missing);
`New_SB` is the incremented clone of `Cur_SB`. -/
def ObtainGeneration (st : StorageProvider) (id : UUID) : Except Fatal Generation :=
  let existingVer := st.GetStreamVersion id
  let curSB : Except Fatal Superblock :=
    if existingVer = 0 then
      Except.ok (NewSuperblock id)
    else
      match st.ReadSuperBlock id existingVer with
      | none => Except.error (Fatal.corruptSuperblock id existingVer)
      | some sbarr => DeserializeSuperblock id existingVer sbarr
  curSB.map fun sb =>
    { Cur_SB := sb
      New_SB := sb.CloneInc
      cblocks := []
      vblocks := []
      flushed := false }

/-- Modelled from the spec: the bounded LRU block cache.  `entries` is
ordered most-recently-used first; `cachemax` is the configured capacity;
`cachehit`/`cachemiss` are the cumulative counters. -/
structure CacheState where
  entries : List (Nat × Datablock)
  cachemax : Nat
  cachehit : Nat
  cachemiss : Nat

/-- Modelled from the spec: `get(address)` — on a hit the entry is
relinked to the most-recently-used end and the hit counter incremented;
on a miss the miss counter is incremented and absence returned. -/
def cacheGet (c : CacheState) (addr : Nat) : Option Datablock × CacheState :=
  match c.entries.lookup addr with
  | some db =>
      (some db,
        { c with
          entries := (addr, db) :: c.entries.filter (fun e => e.1 != addr)
          cachehit := c.cachehit + 1 })
  | none => (none, { c with cachemiss := c.cachemiss + 1 })

/-- Modelled from the spec: `put(address, block)` inserts at the
most-recently-used end; if the entry count exceeds the configured
maximum, the least-recently-used entry is evicted. -/
def cachePut (c : CacheState) (addr : Nat) (db : Datablock) : CacheState :=
  let entries := (addr, db) :: c.entries.filter (fun e => e.1 != addr)
  { c with entries := if c.cachemax < entries.length then entries.dropLast else entries }

/-- The state of a `BlockStore` relevant to the read path: its storage
provider and its cache. -/
structure BSState where
  store : StorageProvider
  cache : CacheState

/-- `func (bs *BlockStore) ReadDatablock(uuid, addr, impl_Generation, impl_Pointwidth, impl_StartTime) Datablock`:
cache first; on a miss, read the payload, decode by its type
discriminant, stamp the caller-supplied contextual fields, insert into
the cache, return.  An unrecognized discriminant panics
(`lg.Panic("Strange datablock type")`). -/
def ReadDatablock (bs : BSState) (addr : Nat) (implGeneration : Nat)
    (implPointwidth : Nat) (implStartTime : Int) :
    Except Fatal (Datablock × BSState) :=
  match cacheGet bs.cache addr with
  | (some db, cache') => Except.ok (db, { bs with cache := cache' })
  | (none, cache') =>
    let trimbuf := bs.store.Read addr
    match DatablockGetBufferType trimbuf with
    | BlockType.Core =>
      let rv := { Coreblock.DeserializeBuf trimbuf with
                  Identifier := addr
                  Generation := implGeneration
                  PointWidth := implPointwidth
                  StartTime := implStartTime }
      Except.ok (Datablock.core rv, { bs with cache := cachePut cache' addr (Datablock.core rv) })
    | BlockType.Vector =>
      let rv := { Vectorblock.DeserializeBuf trimbuf with
                  Identifier := addr
                  Generation := implGeneration
                  PointWidth := implPointwidth
                  StartTime := implStartTime }
      Except.ok (Datablock.vector rv, { bs with cache := cachePut cache' addr (Datablock.vector rv) })
    | BlockType.Bad _ => Except.error Fatal.strangeDatablockType

/-- Modelled from the spec: the type of `LinkAndStore`, which durably
writes every allocated core/vector block into the flat block address
space and produces the temporary-to-durable address mapping.  It touches
only the block payload space, never the superblock records or the
version index. -/
def LSFn : Type :=
  List Vectorblock → List Coreblock → (Nat → Payload) → List (Nat × Nat) × (Nat → Payload)

/-- The outcome of `func (gen *Generation) Commit() (map[uint64]uint64, error)`:
a fatal panic, a returned error value (with the generation and provider
states it leaves behind), or success carrying the address map, the
committed generation and the final provider state. -/
inductive CommitResult
| fatal (f : Fatal)
| err (msg : String) (gen : Generation) (st : StorageProvider)
| ok (addressMap : List (Nat × Nat)) (gen : Generation) (st : StorageProvider)

/-- `Commit`: refuse a second flush; link-and-store the allocated
blocks; resolve the new root through the address map (panicking when
absent); discard the block lists; persist the new superblock; publish
the new version; mark flushed. -/
def Generation.Commit (ls : LSFn) (st : StorageProvider) (gen : Generation) : CommitResult :=
  if gen.flushed then
    CommitResult.err "Already Flushed" gen st
  else
    let lsOut := ls gen.vblocks gen.cblocks st.blocks
    let address_map := lsOut.1
    let st1 := { st with blocks := lsOut.2 }
    match address_map.lookup gen.New_SB.root with
    | none => CommitResult.fatal Fatal.rootResolutionFailure
    | some rootaddr =>
      let newSB := { gen.New_SB with root := rootaddr }
      let st2 := st1.WriteSuperBlock newSB.uuid newSB.gen newSB.Serialize
      let st3 := st2.SetStreamVersion newSB.uuid newSB.gen
      CommitResult.ok address_map
        { gen with New_SB := newSB, vblocks := [], cblocks := [], flushed := true }
        st3

/-- The sequence of provider states traversed by `Commit`, in program
order: the initial state, the state after `LinkAndStore`, the state
after `WriteSuperBlock`, and the state after `SetStreamVersion` (the
trace is cut short where `Commit` returns early). -/
def Generation.commitStates (ls : LSFn) (st : StorageProvider) (gen : Generation) :
    List StorageProvider :=
  if gen.flushed then
    [st]
  else
    let lsOut := ls gen.vblocks gen.cblocks st.blocks
    let address_map := lsOut.1
    let st1 := { st with blocks := lsOut.2 }
    match address_map.lookup gen.New_SB.root with
    | none => [st, st1]
    | some rootaddr =>
      let newSB := { gen.New_SB with root := rootaddr }
      let st2 := st1.WriteSuperBlock newSB.uuid newSB.gen newSB.Serialize
      let st3 := st2.SetStreamVersion newSB.uuid newSB.gen
      [st, st1, st2, st3]

/-- Modelled from the spec: `RELOCATION_BASE`, the fixed base offset
reserved for temporary (relocation) addresses, disjoint from durable
address ranges; the constant lives in the provider package, outside
`src/`. -/
def RELOCATION_BASE : Nat := 0xFF00000000000000

/-- One step of the background address generator of `NewBlockStore`:
`relocation_addr += 1` as a `uint64`, then
`if relocation_addr < RELOCATION_BASE { relocation_addr = RELOCATION_BASE }`. -/
def allocStep (a : Nat) : Nat :=
  let a' := (a + 1) % u64Mod
  if a' < RELOCATION_BASE then RELOCATION_BASE else a'

/-- The address delivered by the `k`-th `allocateBlock` call (the
channel of `NewBlockStore` delivers the generator's values in order,
starting from `RELOCATION_BASE`). -/
def allocSeq : Nat → Nat
| 0 => RELOCATION_BASE
| k + 1 => allocStep (allocSeq k)

/-- `func (gen *Generation) AllocateCoreblock() (*Coreblock, error)`:
stamp a fresh relocation address and the generation's number on a new
core block and append it; the allocator counter is passed explicitly
(`k` is how many allocations the store has served so far). -/
def Generation.AllocateCoreblock (gen : Generation) (k : Nat) : Coreblock × Generation × Nat :=
  let cblock : Coreblock :=
    { Identifier := allocSeq k, Generation := gen.Number
      PointWidth := 0, StartTime := 0, payload := 0 }
  (cblock, { gen with cblocks := gen.cblocks ++ [cblock] }, k + 1)

/-- `func (gen *Generation) AllocateVectorblock() (*Vectorblock, error)`:
as `AllocateCoreblock`, for vector blocks. -/
def Generation.AllocateVectorblock (gen : Generation) (k : Nat) : Vectorblock × Generation × Nat :=
  let vblock : Vectorblock :=
    { Identifier := allocSeq k, Generation := gen.Number
      PointWidth := 0, StartTime := 0, payload := 0 }
  (vblock, { gen with vblocks := gen.vblocks ++ [vblock] }, k + 1)

/-- One full write pass on stream `id`: obtain a generation, record a
root address, commit.  Returns the committed generation number and the
resulting provider state; `none` when any step fails. -/
def writePass (ls : LSFn) (rootAddr : Nat) (st : StorageProvider) (id : UUID) :
    Option (Nat × StorageProvider) :=
  match ObtainGeneration st id with
  | Except.error _ => none
  | Except.ok gen =>
    match (gen.UpdateRootAddr rootAddr).Commit ls st with
    | CommitResult.ok _ gen' st' => some (gen'.New_SB.gen, st')
    | _ => none

/-- A sequence of write passes; each pass may use its own `LinkAndStore`
behavior and root address.  Returns the committed generation numbers in
commit order. -/
def runPasses (st : StorageProvider) (id : UUID) :
    List (LSFn × Nat) → Option (List Nat × StorageProvider)
| [] => some ([], st)
| (ls, ra) :: rest =>
  match writePass ls ra st id with
  | none => none
  | some (g, st') =>
    match runPasses st' id rest with
    | none => none
    | some (gs, st'') => some (g :: gs, st'')

/-- The reader-coherence property: whenever the version index points at
a generation, that generation's superblock bytes are present. -/
def pointsToWritten (st : StorageProvider) (id : UUID) : Prop :=
  st.GetStreamVersion id ≠ 0 →
    (st.ReadSuperBlock id (st.GetStreamVersion id)).isSome = true

/-- A provider with no stream ever written. -/
def stEmpty : StorageProvider :=
  { version := fun _ => 0
    superblocks := fun _ _ => none
    blocks := fun _ => Payload.other 0
    events := [] }

/-- A provider where stream 1 has committed generation 1, a core payload
at address 7, a vector payload at address 8, and garbage elsewhere. -/
def stOne : StorageProvider :=
  { version := fun i => if i = 1 then 1 else 0
    superblocks := fun i g =>
      if i = 1 ∧ g = 1 then some { uuid := 1, gen := 1, root := 5 } else none
    blocks := fun a =>
      if a = 7 then Payload.core 11 else if a = 8 then Payload.vector 12 else Payload.other 3
    events := [] }

/-- A corrupt provider: stream 1 claims generation 1, but the stored
superblock record carries stream id 2 — readable bytes that fail the
deserialization validation. -/
def stCorrupt : StorageProvider :=
  { version := fun i => if i = 1 then 1 else 0
    superblocks := fun i g =>
      if i = 1 ∧ g = 1 then some { uuid := 2, gen := 1, root := 5 } else none
    blocks := fun _ => Payload.other 0
    events := [] }

/-- A `LinkAndStore` behavior mapping temporary address 0 to durable
address 1000 and writing no payloads. -/
def lsW : LSFn := fun _ _ blocks => ([(0, 1000)], blocks)

/-- A `LinkAndStore` behavior with an empty address map. -/
def lsNone : LSFn := fun _ _ blocks => ([], blocks)

/-- An empty cache of capacity 4. -/
def cacheEmpty : CacheState :=
  { entries := [], cachemax := 4, cachehit := 0, cachemiss := 0 }

/-- A blockstore state over `stOne` with an empty cache. -/
def bsW : BSState := { store := stOne, cache := cacheEmpty }

/-- An already-committed generation on stream 1. -/
def genFlushed : Generation :=
  { Cur_SB := NewSuperblock 1, New_SB := (NewSuperblock 1).CloneInc
    cblocks := [], vblocks := [], flushed := true }

/-- A fresh open generation on stream 1 (root still the temporary
address 0). -/
def genOpen : Generation :=
  { Cur_SB := NewSuperblock 1, New_SB := (NewSuperblock 1).CloneInc
    cblocks := [], vblocks := [], flushed := false }

/-- Three write passes, each mapping the temporary root 0 to durable
address 1000. -/
def wChoices : List (LSFn × Nat) := [(lsW, 0), (lsW, 0), (lsW, 0)]

/-- The cache state after one miss on the empty cache. -/
def cMiss : CacheState :=
  { entries := [], cachemax := 4, cachehit := 0, cachemiss := 1 }

/-- The core block decoded from address 7 of `stOne` with contextual
arguments `(9, 3, -5)`. -/
def dbCore : Coreblock :=
  { Identifier := 7, Generation := 9, PointWidth := 3, StartTime := -5, payload := 11 }

/-! ## Helper lemmas -/

theorem relocation_base_lt : RELOCATION_BASE < u64Mod := by
  norm_num [RELOCATION_BASE, u64Mod]

theorem allocSeq_closed_form (k : Nat) (h : k < 2 ^ 56) :
    allocSeq k = RELOCATION_BASE + k := by
  induction k with
  | zero => rfl
  | succ n ih =>
    have hn : n < 2 ^ 56 := Nat.lt_of_succ_lt h
    have hlt : RELOCATION_BASE + n + 1 < u64Mod := by
      have : RELOCATION_BASE + (n + 1) < RELOCATION_BASE + 2 ^ 56 :=
        Nat.add_lt_add_left h _
      calc RELOCATION_BASE + n + 1 = RELOCATION_BASE + (n + 1) := by ring
        _ < RELOCATION_BASE + 2 ^ 56 := this
        _ = u64Mod := by norm_num [RELOCATION_BASE, u64Mod]
    rw [allocSeq, ih hn, allocStep]
    simp only [Nat.mod_eq_of_lt hlt]
    rw [if_neg (by omega)]
    omega

theorem allocStep_ge_base (a : Nat) : RELOCATION_BASE ≤ allocStep a := by
  unfold allocStep
  dsimp only
  split <;> omega

/-! ## Claims -/

/-- C8: for every run of `K` consecutive address allocations, the
returned addresses are strictly increasing and pairwise distinct,
starting at the reserved relocation base, provided the counter has not
wrapped (i.e. the run fits in the reserved range). -/
theorem C8_allocator_strictly_increasing (K i j : Nat) (hK : K ≤ 2 ^ 56)
    (hij : i < j) (hj : j < K) :
    allocSeq 0 = RELOCATION_BASE ∧ allocSeq i < allocSeq j ∧ allocSeq i ≠ allocSeq j := by
  have hi' : i < 2 ^ 56 := lt_of_lt_of_le (lt_trans hij hj) hK
  have hj' : j < 2 ^ 56 := lt_of_lt_of_le hj hK
  rw [allocSeq_closed_form i hi', allocSeq_closed_form j hj']
  refine ⟨rfl, Nat.add_lt_add_left hij _, by omega⟩

/-- C8 witness: the first three allocations are base, base+1, base+2. -/
theorem C8_allocator_strictly_increasing_witness :
    (3 : Nat) ≤ 2 ^ 56 ∧ (0 : Nat) < 2 ∧ (2 : Nat) < 3 ∧
      (allocSeq 0 = RELOCATION_BASE ∧ allocSeq 0 < allocSeq 2 ∧ allocSeq 0 ≠ allocSeq 2) :=
  ⟨by norm_num, by norm_num, by norm_num,
    C8_allocator_strictly_increasing 3 0 2 (by norm_num) (by norm_num) (by norm_num)⟩

/-- C9: whenever the incremented counter wraps below the reserved
relocation base, the next generated address is reset to exactly the
base; consequently every generated address is at least the base. -/
theorem C9_wrap_resets_to_base :
    (∀ a, (a + 1) % u64Mod < RELOCATION_BASE → allocStep a = RELOCATION_BASE) ∧
      (∀ k, RELOCATION_BASE ≤ allocSeq k) := by
  constructor
  · intro a h
    unfold allocStep
    exact if_pos h
  · intro k
    cases k with
    | zero => exact Nat.le_refl _
    | succ n => exact allocStep_ge_base (allocSeq n)

/-- C9 witness: the counter value `2^64 - 1` wraps to 0, which is below
the base, and the next address is exactly the base. -/
theorem C9_wrap_resets_to_base_witness :
    (2 ^ 64 - 1 + 1) % u64Mod < RELOCATION_BASE ∧
      allocStep (2 ^ 64 - 1) = RELOCATION_BASE ∧ RELOCATION_BASE ≤ allocSeq 5 :=
  ⟨by norm_num [u64Mod, RELOCATION_BASE],
    C9_wrap_resets_to_base.1 (2 ^ 64 - 1) (by norm_num [u64Mod, RELOCATION_BASE]),
    C9_wrap_resets_to_base.2 5⟩

/-- C10: the `LatestGeneration` sentinel is `2^64 - 1`, and
`LoadSuperblock` compares the generation argument against it by
equality, so requesting the literal generation `2^64 - 1` always means
requesting the latest committed generation. -/
theorem C10_latest_sentinel (st : StorageProvider) (id : UUID) :
    LatestGeneration = 2 ^ 64 - 1 ∧
      LoadSuperblock st id LatestGeneration =
        LoadSuperblock st id (st.GetStreamVersion id) := by
  refine ⟨rfl, ?_⟩
  unfold LoadSuperblock
  by_cases hv : st.GetStreamVersion id = 0
  · simp [hv]
  · by_cases hs : st.GetStreamVersion id = LatestGeneration
    · simp [hv, hs]
    · simp [hv, hs]

/-- C2: `Commit` on an already-flushed generation returns the
`Already Flushed` error and performs no further work — the generation
and the provider state (blocks, superblocks, version pointer, event log)
are returned unchanged. -/
theorem C2_commit_already_flushed (ls : LSFn) (st : StorageProvider) (gen : Generation)
    (h : gen.flushed = true) :
    gen.Commit ls st = CommitResult.err "Already Flushed" gen st := by
  unfold Generation.Commit
  rw [if_pos h]

/-- C2 witness. -/
theorem C2_commit_already_flushed_witness :
    genFlushed.flushed = true ∧
      genFlushed.Commit lsW stOne = CommitResult.err "Already Flushed" genFlushed stOne :=
  ⟨rfl, C2_commit_already_flushed lsW stOne genFlushed rfl⟩

/-- C4: when the recorded new-root address is not a key of the
temporary-to-durable map produced by `LinkAndStore`, `Commit` panics
(`RootResolutionFailure`); otherwise the root is replaced by the mapped
durable address before the superblock is persisted. -/
theorem C4_commit_root_resolution (ls : LSFn) (st : StorageProvider) (gen : Generation)
    (h : gen.flushed = false) :
    ((ls gen.vblocks gen.cblocks st.blocks).1.lookup gen.New_SB.root = none →
        gen.Commit ls st = CommitResult.fatal Fatal.rootResolutionFailure) ∧
      (∀ r, (ls gen.vblocks gen.cblocks st.blocks).1.lookup gen.New_SB.root = some r →
        ∃ gen' st',
          gen.Commit ls st =
            CommitResult.ok (ls gen.vblocks gen.cblocks st.blocks).1 gen' st' ∧
          gen'.New_SB.root = r ∧
          gen'.New_SB.gen = gen.New_SB.gen ∧
          st'.ReadSuperBlock gen.New_SB.uuid gen.New_SB.gen = some gen'.New_SB.Serialize) := by
  constructor
  · intro hnone
    unfold Generation.Commit
    rw [if_neg (by simp [h])]
    simp only [hnone]
  · intro r hsome
    set newSB : Superblock := { gen.New_SB with root := r } with hsb
    set genOut : Generation :=
      { gen with New_SB := newSB, vblocks := [], cblocks := [], flushed := true } with hgo
    set stOut : StorageProvider :=
      (({ st with blocks := (ls gen.vblocks gen.cblocks st.blocks).2 }).WriteSuperBlock
        gen.New_SB.uuid gen.New_SB.gen newSB.Serialize).SetStreamVersion
        gen.New_SB.uuid gen.New_SB.gen with hso
    refine ⟨genOut, stOut, ?_, rfl, rfl, ?_⟩
    · simp [Generation.Commit, h, hsome, hgo, hso, hsb]
    · simp [hso, hsb, StorageProvider.ReadSuperBlock, StorageProvider.SetStreamVersion,
        StorageProvider.WriteSuperBlock, Superblock.Serialize]

/-- C4 witness: an empty address map makes `Commit` panic with root
resolution failure. -/
theorem C4_commit_root_resolution_witness :
    genOpen.flushed = false ∧
      (lsNone genOpen.vblocks genOpen.cblocks stOne.blocks).1.lookup genOpen.New_SB.root =
        none ∧
      genOpen.Commit lsNone stOne = CommitResult.fatal Fatal.rootResolutionFailure :=
  ⟨rfl, rfl, (C4_commit_root_resolution lsNone stOne genOpen rfl).1 rfl⟩

/-- C6: on a cache miss, `ReadDatablock` decodes the provider's payload
by its type discriminant, keeps the decoded payload, overwrites
`Identifier` with the requested address and `Generation`, `PointWidth`,
`StartTime` with the caller-supplied arguments, and returns a state
whose cache has the decoded block inserted. -/
theorem C6_read_datablock_miss (bs : BSState) (addr implGeneration implPointwidth : Nat)
    (implStartTime : Int) (c' : CacheState)
    (hmiss : cacheGet bs.cache addr = (none, c')) :
    (∀ p, bs.store.Read addr = Payload.core p →
        ReadDatablock bs addr implGeneration implPointwidth implStartTime =
          Except.ok
            (Datablock.core
              { Identifier := addr, Generation := implGeneration
                PointWidth := implPointwidth, StartTime := implStartTime, payload := p },
              { bs with cache := cachePut c' addr (Datablock.core
                  { Identifier := addr, Generation := implGeneration
                    PointWidth := implPointwidth, StartTime := implStartTime
                    payload := p }) })) ∧
      (∀ p, bs.store.Read addr = Payload.vector p →
        ReadDatablock bs addr implGeneration implPointwidth implStartTime =
          Except.ok
            (Datablock.vector
              { Identifier := addr, Generation := implGeneration
                PointWidth := implPointwidth, StartTime := implStartTime, payload := p },
              { bs with cache := cachePut c' addr (Datablock.vector
                  { Identifier := addr, Generation := implGeneration
                    PointWidth := implPointwidth, StartTime := implStartTime
                    payload := p }) })) := by
  constructor
  · intro p hp
    unfold ReadDatablock
    rw [hmiss]
    simp [hp, DatablockGetBufferType, Coreblock.DeserializeBuf]
  · intro p hp
    unfold ReadDatablock
    rw [hmiss]
    simp [hp, DatablockGetBufferType, Vectorblock.DeserializeBuf]

/-- C6 witness: a miss on address 7 of `bsW` decodes the core payload 11
and stamps the caller-supplied fields. -/
theorem C6_read_datablock_miss_witness :
    cacheGet bsW.cache 7 = (none, cMiss) ∧
      bsW.store.Read 7 = Payload.core 11 ∧
      ReadDatablock bsW 7 9 3 (-5) =
        Except.ok
          (Datablock.core dbCore,
            { bsW with cache := cachePut cMiss 7 (Datablock.core dbCore) }) :=
  ⟨rfl, rfl, (C6_read_datablock_miss bsW 7 9 3 (-5) cMiss rfl).1 11 rfl⟩

/-- C7: on a cache miss whose fetched payload carries a type
discriminant that is neither core nor vector, `ReadDatablock` panics
(`Strange datablock type`) and never returns a block. -/
theorem C7_read_datablock_corrupt (bs : BSState) (addr implGeneration implPointwidth : Nat)
    (implStartTime : Int) (c' : CacheState) (t : Nat)
    (hmiss : cacheGet bs.cache addr = (none, c'))
    (hbad : DatablockGetBufferType (bs.store.Read addr) = BlockType.Bad t) :
    ReadDatablock bs addr implGeneration implPointwidth implStartTime =
      Except.error Fatal.strangeDatablockType := by
  unfold ReadDatablock
  rw [hmiss]
  simp [hbad]

/-- C7 witness: address 9 of `bsW` holds an unrecognized discriminant. -/
theorem C7_read_datablock_corrupt_witness :
    cacheGet bsW.cache 9 = (none, cMiss) ∧
      DatablockGetBufferType (bsW.store.Read 9) = BlockType.Bad 3 ∧
      ReadDatablock bsW 9 9 3 (-5) = Except.error Fatal.strangeDatablockType :=
  ⟨rfl, rfl, C7_read_datablock_corrupt bsW 9 9 3 (-5) cMiss 3 rfl rfl⟩

/-- C5 (amended): `LoadSuperblock` returns absent for a never-written
stream (version 0); it resolves the `LATEST` sentinel to the provider's
current version; for every non-sentinel requested generation strictly
greater than the latest committed one it returns absent (not an error);
and it fails fatally only when the generation it resolved to is claimed
to exist by the version index (it is at most the latest and the stream
has been written) and is corrupt: either its bytes are missing, or the
record's stored stream id and generation number fail the
deserialization validation against the request. -/
theorem C5_load_superblock_cases (st : StorageProvider) (id : UUID) (g : Nat) :
    (st.GetStreamVersion id = 0 → LoadSuperblock st id g = Except.ok none) ∧
      (st.GetStreamVersion id ≠ 0 →
        LoadSuperblock st id LatestGeneration =
          LoadSuperblock st id (st.GetStreamVersion id)) ∧
      (g ≠ LatestGeneration → st.GetStreamVersion id < g →
        LoadSuperblock st id g = Except.ok none) ∧
      (∀ e, LoadSuperblock st id g = Except.error e →
        st.GetStreamVersion id ≠ 0 ∧
          (if g = LatestGeneration then st.GetStreamVersion id else g) ≤
            st.GetStreamVersion id ∧
          ((st.ReadSuperBlock id
              (if g = LatestGeneration then st.GetStreamVersion id else g) = none ∧
            e = Fatal.corruptSuperblock id
              (if g = LatestGeneration then st.GetStreamVersion id else g)) ∨
            (∃ b, st.ReadSuperBlock id
                (if g = LatestGeneration then st.GetStreamVersion id else g) = some b ∧
              ¬ (b.uuid = id ∧ b.gen =
                (if g = LatestGeneration then st.GetStreamVersion id else g)) ∧
              e = Fatal.superblockMismatch id
                (if g = LatestGeneration then st.GetStreamVersion id else g)))) := by
  refine ⟨?_, ?_, ?_, ?_⟩
  · intro h0
    simp [LoadSuperblock, h0]
  · intro hv
    unfold LoadSuperblock
    by_cases hs : st.GetStreamVersion id = LatestGeneration
    · simp [hv, hs]
    · simp [hv, hs]
  · intro hns hgt
    unfold LoadSuperblock
    by_cases hv : st.GetStreamVersion id = 0
    · simp [hv]
    · simp only [hv, if_false, if_neg hns]
      rw [if_pos hgt]
  · intro e he
    unfold LoadSuperblock at he
    by_cases hv : st.GetStreamVersion id = 0
    · simp [hv] at he
    · simp only [hv, if_false] at he
      by_cases hs : g = LatestGeneration
      · rw [if_pos hs, if_neg (lt_irrefl _)] at he
        cases hb : st.ReadSuperBlock id (st.GetStreamVersion id) with
        | none =>
          rw [hb] at he
          simp only [Except.error.injEq] at he
          refine ⟨hv, by rw [if_pos hs], Or.inl ⟨by rw [if_pos hs]; exact hb, ?_⟩⟩
          rw [if_pos hs]
          exact he.symm
        | some b =>
          rw [hb] at he
          by_cases hm : b.uuid = id ∧ b.gen = st.GetStreamVersion id
          · simp [DeserializeSuperblock, hm] at he
          · simp only [DeserializeSuperblock, if_neg hm, Except.error.injEq] at he
            refine ⟨hv, by rw [if_pos hs],
              Or.inr ⟨b, by rw [if_pos hs]; exact hb, ?_, ?_⟩⟩
            · rw [if_pos hs]
              exact hm
            · rw [if_pos hs]
              exact he.symm
      · rw [if_neg hs] at he
        by_cases hgt : st.GetStreamVersion id < g
        · rw [if_pos hgt] at he; simp at he
        · rw [if_neg hgt] at he
          cases hb : st.ReadSuperBlock id g with
          | none =>
            rw [hb] at he
            simp only [Except.error.injEq] at he
            refine ⟨hv, by rw [if_neg hs]; omega,
              Or.inl ⟨by rw [if_neg hs]; exact hb, ?_⟩⟩
            rw [if_neg hs]
            exact he.symm
          | some b =>
            rw [hb] at he
            by_cases hm : b.uuid = id ∧ b.gen = g
            · simp [DeserializeSuperblock, hm] at he
            · simp only [DeserializeSuperblock, if_neg hm, Except.error.injEq] at he
              refine ⟨hv, by rw [if_neg hs]; omega,
                Or.inr ⟨b, by rw [if_neg hs]; exact hb, ?_, ?_⟩⟩
              · rw [if_neg hs]
                exact hm
              · rw [if_neg hs]
                exact he.symm

/-- C5 witness: an unwritten stream yields absent, and a request beyond
the latest generation yields absent, not an error. -/
theorem C5_load_superblock_cases_witness :
    (stEmpty.GetStreamVersion 1 = 0 ∧ LoadSuperblock stEmpty 1 5 = Except.ok none) ∧
      ((7 : Nat) ≠ LatestGeneration ∧ stOne.GetStreamVersion 1 < 7 ∧
        LoadSuperblock stOne 1 7 = Except.ok none) :=
  ⟨⟨rfl, (C5_load_superblock_cases stEmpty 1 5).1 rfl⟩,
    ⟨by norm_num [LatestGeneration], by norm_num [stOne, StorageProvider.GetStreamVersion],
      (C5_load_superblock_cases stOne 1 7).2.2.1 (by norm_num [LatestGeneration])
        (by norm_num [stOne, StorageProvider.GetStreamVersion])⟩⟩

/-- C5 counterexample: on a provider whose stored record for stream 1,
generation 1 carries stream id 2, `LoadSuperblock` fails fatally even
though the generation's superblock bytes exist and are readable — the
failure is the deserialization-validation corruption, not missing
bytes. -/
theorem C5_counterexample :
    stCorrupt.GetStreamVersion 1 = 1 ∧
      stCorrupt.ReadSuperBlock 1 1 = some { uuid := 2, gen := 1, root := 5 } ∧
      LoadSuperblock stCorrupt 1 1 =
        Except.error (Fatal.superblockMismatch 1 1) :=
  ⟨rfl, rfl, rfl⟩

theorem LoadSuperblock_congr (st st' : StorageProvider) (id : UUID) (g : Nat)
    (h1 : st'.version = st.version) (h2 : st'.superblocks = st.superblocks) :
    LoadSuperblock st' id g = LoadSuperblock st id g := by
  unfold LoadSuperblock StorageProvider.GetStreamVersion StorageProvider.ReadSuperBlock
  rw [h1, h2]

theorem pointsToWritten_congr (st st' : StorageProvider) (id : UUID)
    (h1 : st'.version = st.version) (h2 : st'.superblocks = st.superblocks)
    (h : pointsToWritten st id) : pointsToWritten st' id := by
  unfold pointsToWritten StorageProvider.GetStreamVersion StorageProvider.ReadSuperBlock at *
  rw [h1, h2]
  exact h

theorem LoadSuperblock_zero_eval (st : StorageProvider) (id : UUID) (g : Nat)
    (h : st.GetStreamVersion id = 0) : LoadSuperblock st id g = Except.ok none := by
  simp [LoadSuperblock, h]

theorem LoadSuperblock_latest_eval (st : StorageProvider) (id : UUID)
    (h : ¬ st.GetStreamVersion id = 0) :
    LoadSuperblock st id LatestGeneration =
      match st.ReadSuperBlock id (st.GetStreamVersion id) with
      | none => Except.error (Fatal.corruptSuperblock id (st.GetStreamVersion id))
      | some b =>
        match DeserializeSuperblock id (st.GetStreamVersion id) b with
        | Except.error f => Except.error f
        | Except.ok sb => Except.ok (some sb) := by
  simp only [LoadSuperblock]
  rw [if_neg h]
  simp [lt_irrefl]

theorem DeserializeSuperblock_serialize (id : UUID) (gen : Nat) (s : Superblock)
    (h1 : s.uuid = id) (h2 : s.gen = gen) :
    DeserializeSuperblock id gen s.Serialize = Except.ok s := by
  subst h1
  subst h2
  simp [DeserializeSuperblock, Superblock.Serialize]

/-- C3: in every successful `Commit`, the superblock write strictly
precedes the version-pointer publication in the provider event log, and
at every provider state traversed by the commit a reader resolving
`LATEST` sees either exactly what it saw before the commit or the new
superblock — and the version pointer never points at an unwritten
superblock. -/
theorem C3_commit_write_before_publish (ls : LSFn) (st : StorageProvider) (gen : Generation)
    (r : Nat) (hf : gen.flushed = false)
    (hr : (ls gen.vblocks gen.cblocks st.blocks).1.lookup gen.New_SB.root = some r)
    (hg : gen.New_SB.gen ≠ 0) :
    ∃ st3,
      gen.Commit ls st =
        CommitResult.ok (ls gen.vblocks gen.cblocks st.blocks).1
          { gen with New_SB := { gen.New_SB with root := r },
                     vblocks := [], cblocks := [], flushed := true } st3 ∧
        st3.events = st.events ++
          [Event.writeSuperBlock gen.New_SB.uuid gen.New_SB.gen,
            Event.setStreamVersion gen.New_SB.uuid gen.New_SB.gen] ∧
        (∀ s ∈ gen.commitStates ls st,
          LoadSuperblock s gen.New_SB.uuid LatestGeneration =
              LoadSuperblock st gen.New_SB.uuid LatestGeneration ∨
            LoadSuperblock s gen.New_SB.uuid LatestGeneration =
              Except.ok (some { gen.New_SB with root := r })) ∧
        (pointsToWritten st gen.New_SB.uuid →
          ∀ s ∈ gen.commitStates ls st, pointsToWritten s gen.New_SB.uuid) := by
  classical
  set u := gen.New_SB.uuid with hu
  set ng := gen.New_SB.gen with hng
  set st1 : StorageProvider := { st with blocks := (ls gen.vblocks gen.cblocks st.blocks).2 }
    with h1
  set nsb : Superblock := { gen.New_SB with root := r } with hnsb
  set st2 : StorageProvider := st1.WriteSuperBlock u ng nsb.Serialize with h2
  set st3 : StorageProvider := st2.SetStreamVersion u ng with h3
  have hv2 : st2.GetStreamVersion u = st.GetStreamVersion u := by
    simp [h2, h1, StorageProvider.WriteSuperBlock, StorageProvider.GetStreamVersion]
  have hsb2 : ∀ x, st2.ReadSuperBlock u x =
      if x = ng then some nsb.Serialize else st.ReadSuperBlock u x := by
    intro x
    simp [h2, h1, StorageProvider.WriteSuperBlock, StorageProvider.ReadSuperBlock]
  have hv3 : st3.GetStreamVersion u = ng := by
    simp [h3, StorageProvider.SetStreamVersion, StorageProvider.GetStreamVersion]
  have hsb3 : ∀ x, st3.ReadSuperBlock u x = st2.ReadSuperBlock u x := by
    intro x
    simp [h3, StorageProvider.SetStreamVersion, StorageProvider.ReadSuperBlock]
  have hcs : gen.commitStates ls st = [st, st1, st2, st3] := by
    simp [Generation.commitStates, hf, hr, h1, h2, h3, hnsb, hu, hng]
  refine ⟨st3, ?_, ?_, ?_, ?_⟩
  · simp [Generation.Commit, hf, hr, h1, h2, h3, hnsb, hu, hng]
  · simp [h3, h2, h1, StorageProvider.SetStreamVersion, StorageProvider.WriteSuperBlock]
  · intro s hs
    rw [hcs] at hs
    simp only [List.mem_cons, List.not_mem_nil, or_false] at hs
    rcases hs with rfl | rfl | rfl | rfl
    · exact Or.inl rfl
    · exact Or.inl (LoadSuperblock_congr st st1 u LatestGeneration rfl rfl)
    · by_cases hv : st.GetStreamVersion u = 0
      · left
        rw [LoadSuperblock_zero_eval st2 u LatestGeneration (by rw [hv2]; exact hv),
          LoadSuperblock_zero_eval st u LatestGeneration hv]
      · by_cases hveq : st.GetStreamVersion u = ng
        · right
          rw [LoadSuperblock_latest_eval st2 u (by rw [hv2]; exact hv), hv2, hveq,
            hsb2 ng, if_pos rfl]
          dsimp only
          rw [DeserializeSuperblock_serialize u ng nsb rfl rfl]
        · left
          rw [LoadSuperblock_latest_eval st2 u (by rw [hv2]; exact hv),
            LoadSuperblock_latest_eval st u hv, hv2, hsb2 (st.GetStreamVersion u),
            if_neg hveq]
    · right
      rw [LoadSuperblock_latest_eval st3 u (by rw [hv3]; exact hg), hv3, hsb3 ng,
        hsb2 ng, if_pos rfl]
      dsimp only
      rw [DeserializeSuperblock_serialize u ng nsb rfl rfl]
  · intro hp s hs
    rw [hcs] at hs
    simp only [List.mem_cons, List.not_mem_nil, or_false] at hs
    rcases hs with rfl | rfl | rfl | rfl
    · exact hp
    · exact pointsToWritten_congr st st1 u rfl rfl hp
    · intro hne
      rw [hv2] at hne
      rw [hv2, hsb2 (st.GetStreamVersion u)]
      by_cases hveq : st.GetStreamVersion u = ng
      · rw [if_pos hveq]
        rfl
      · rw [if_neg hveq]
        exact hp hne
    · intro _
      rw [hv3, hsb3 ng, hsb2 ng, if_pos rfl]
      rfl

/-- C3 witness: a concrete commit on `stOne`. -/
theorem C3_commit_write_before_publish_witness :
    genOpen.flushed = false ∧
      (lsW genOpen.vblocks genOpen.cblocks stOne.blocks).1.lookup genOpen.New_SB.root =
        some 1000 ∧
      genOpen.New_SB.gen ≠ 0 ∧
      (∃ st3,
        genOpen.Commit lsW stOne =
          CommitResult.ok (lsW genOpen.vblocks genOpen.cblocks stOne.blocks).1
            { genOpen with New_SB := { genOpen.New_SB with root := 1000 },
                           vblocks := [], cblocks := [], flushed := true } st3 ∧
          st3.events = stOne.events ++
            [Event.writeSuperBlock genOpen.New_SB.uuid genOpen.New_SB.gen,
              Event.setStreamVersion genOpen.New_SB.uuid genOpen.New_SB.gen] ∧
          (∀ s ∈ genOpen.commitStates lsW stOne,
            LoadSuperblock s genOpen.New_SB.uuid LatestGeneration =
                LoadSuperblock stOne genOpen.New_SB.uuid LatestGeneration ∨
              LoadSuperblock s genOpen.New_SB.uuid LatestGeneration =
                Except.ok (some { genOpen.New_SB with root := 1000 })) ∧
          (pointsToWritten stOne genOpen.New_SB.uuid →
            ∀ s ∈ genOpen.commitStates lsW stOne,
              pointsToWritten s genOpen.New_SB.uuid)) :=
  ⟨rfl, rfl, by decide,
    C3_commit_write_before_publish lsW stOne genOpen 1000 rfl rfl (by decide)⟩

theorem u64Mod_eq : u64Mod = 18446744073709551616 := by norm_num [u64Mod]

theorem ObtainGeneration_fresh (st : StorageProvider) (id : UUID)
    (h : st.GetStreamVersion id = 0) :
    ObtainGeneration st id = Except.ok
      { Cur_SB := NewSuperblock id, New_SB := (NewSuperblock id).CloneInc
        cblocks := [], vblocks := [], flushed := false } := by
  simp [ObtainGeneration, h, Except.map]

theorem ObtainGeneration_existing (st : StorageProvider) (id : UUID) (b : SBBytes)
    (sb : Superblock) (h0 : ¬ st.GetStreamVersion id = 0)
    (hb : st.ReadSuperBlock id (st.GetStreamVersion id) = some b)
    (hd : DeserializeSuperblock id (st.GetStreamVersion id) b = Except.ok sb) :
    ObtainGeneration st id = Except.ok
      { Cur_SB := sb, New_SB := sb.CloneInc
        cblocks := [], vblocks := [], flushed := false } := by
  simp [ObtainGeneration, h0, hb, hd, Except.map]

theorem ObtainGeneration_mismatch (st : StorageProvider) (id : UUID) (b : SBBytes)
    (h0 : ¬ st.GetStreamVersion id = 0)
    (hb : st.ReadSuperBlock id (st.GetStreamVersion id) = some b)
    (hm : ¬ (b.uuid = id ∧ b.gen = st.GetStreamVersion id)) :
    ObtainGeneration st id =
      Except.error (Fatal.superblockMismatch id (st.GetStreamVersion id)) := by
  simp [ObtainGeneration, h0, hb, DeserializeSuperblock, hm, Except.map]

theorem ObtainGeneration_corrupt (st : StorageProvider) (id : UUID)
    (h0 : ¬ st.GetStreamVersion id = 0)
    (hb : st.ReadSuperBlock id (st.GetStreamVersion id) = none) :
    ObtainGeneration st id =
      Except.error (Fatal.corruptSuperblock id (st.GetStreamVersion id)) := by
  simp [ObtainGeneration, h0, hb, Except.map]

theorem ObtainGeneration_ok_shape (st : StorageProvider) (id : UUID) (gen : Generation)
    (h : ObtainGeneration st id = Except.ok gen) :
    gen.flushed = false ∧ gen.New_SB.uuid = id ∧
      gen.New_SB.gen =
        ((if st.GetStreamVersion id = 0 then 1 else st.GetStreamVersion id) + 1) % u64Mod := by
  by_cases h0 : st.GetStreamVersion id = 0
  · rw [ObtainGeneration_fresh st id h0] at h
    simp only [Except.ok.injEq] at h
    subst h
    simp [NewSuperblock, Superblock.CloneInc, h0]
  · cases hb : st.ReadSuperBlock id (st.GetStreamVersion id) with
    | none => rw [ObtainGeneration_corrupt st id h0 hb] at h; simp at h
    | some b =>
      by_cases hm : b.uuid = id ∧ b.gen = st.GetStreamVersion id
      · have hd : DeserializeSuperblock id (st.GetStreamVersion id) b =
            Except.ok { uuid := id, gen := st.GetStreamVersion id, root := b.root } := by
          simp [DeserializeSuperblock, hm]
        rw [ObtainGeneration_existing st id b
          { uuid := id, gen := st.GetStreamVersion id, root := b.root } h0 hb hd] at h
        simp only [Except.ok.injEq] at h
        subst h
        simp [Superblock.CloneInc, h0]
      · rw [ObtainGeneration_mismatch st id b h0 hb hm] at h
        simp at h

theorem Commit_ok_version (ls : LSFn) (st : StorageProvider) (gen : Generation)
    (m : List (Nat × Nat)) (gen' : Generation) (st' : StorageProvider)
    (h : gen.Commit ls st = CommitResult.ok m gen' st') :
    gen'.New_SB.gen = gen.New_SB.gen ∧
      st'.GetStreamVersion gen.New_SB.uuid = gen.New_SB.gen := by
  by_cases hf : gen.flushed
  · simp only [Generation.Commit] at h
    rw [if_pos hf] at h
    simp at h
  · simp only [Generation.Commit] at h
    rw [if_neg (by simp [hf])] at h
    cases hk : (ls gen.vblocks gen.cblocks st.blocks).1.lookup gen.New_SB.root with
    | none => rw [hk] at h; simp at h
    | some r =>
      rw [hk] at h
      simp only [CommitResult.ok.injEq] at h
      obtain ⟨hm, hgen, hst⟩ := h
      subst hgen hst
      constructor
      · rfl
      · simp [StorageProvider.SetStreamVersion, StorageProvider.WriteSuperBlock,
          StorageProvider.GetStreamVersion]

theorem writePass_version (ls : LSFn) (ra : Nat) (st : StorageProvider) (id : UUID)
    (g : Nat) (st' : StorageProvider) (h : writePass ls ra st id = some (g, st')) :
    g = ((if st.GetStreamVersion id = 0 then 1 else st.GetStreamVersion id) + 1) % u64Mod ∧
      st'.GetStreamVersion id = g := by
  unfold writePass at h
  cases hOG : ObtainGeneration st id with
  | error e => rw [hOG] at h; simp at h
  | ok gen =>
    rw [hOG] at h
    dsimp only at h
    obtain ⟨hfl, huu, hgen⟩ := ObtainGeneration_ok_shape st id gen hOG
    cases hC : (gen.UpdateRootAddr ra).Commit ls st with
    | fatal f => rw [hC] at h; simp at h
    | err msg g1 s1 => rw [hC] at h; simp at h
    | ok m g1 s1 =>
      rw [hC] at h
      dsimp only at h
      simp only [Option.some.injEq, Prod.mk.injEq] at h
      obtain ⟨hg, hst⟩ := h
      obtain ⟨hgg, hvv⟩ := Commit_ok_version ls st (gen.UpdateRootAddr ra) m g1 s1 hC
      simp only [Generation.UpdateRootAddr] at hgg hvv
      rw [huu] at hvv
      constructor
      · rw [← hg, hgg]
        exact hgen
      · rw [← hst, ← hg, hvv, hgg]

theorem runPasses_version (id : UUID) (choices : List (LSFn × Nat)) :
    ∀ (st : StorageProvider) (v : Nat) (gens : List Nat) (stf : StorageProvider),
      st.GetStreamVersion id = v → 1 ≤ v → v + choices.length < u64Mod →
      runPasses st id choices = some (gens, stf) →
      gens = List.range' (v + 1) choices.length ∧
        stf.GetStreamVersion id = v + choices.length := by
  induction choices with
  | nil =>
    intro st v gens stf hv h1 hlt hrun
    simp only [runPasses, Option.some.injEq, Prod.mk.injEq] at hrun
    obtain ⟨hg, hs⟩ := hrun
    constructor
    · rw [← hg]
      simp
    · rw [← hs, hv]
      simp
  | cons c rest ih =>
    obtain ⟨ls, ra⟩ := c
    intro st v gens stf hv h1 hlt hrun
    simp only [runPasses] at hrun
    cases hwp : writePass ls ra st id with
    | none => rw [hwp] at hrun; simp at hrun
    | some p =>
      obtain ⟨g, st1⟩ := p
      rw [hwp] at hrun
      dsimp only at hrun
      obtain ⟨hg, hst1⟩ := writePass_version ls ra st id g st1 hwp
      have hvne : ¬ st.GetStreamVersion id = 0 := by omega
      rw [if_neg hvne, hv] at hg
      have hlt' : v + 1 < u64Mod := by
        rw [u64Mod_eq] at hlt ⊢
        simp only [List.length_cons] at hlt
        omega
      have hg' : g = v + 1 := by rw [hg]; exact Nat.mod_eq_of_lt hlt'
      cases hrr : runPasses st1 id rest with
      | none => rw [hrr] at hrun; simp at hrun
      | some q =>
        obtain ⟨gens', stf'⟩ := q
        rw [hrr] at hrun
        simp only [Option.some.injEq, Prod.mk.injEq] at hrun
        obtain ⟨hgens, hstf⟩ := hrun
        obtain ⟨ih1, ih2⟩ := ih st1 (v + 1) gens' stf' (by rw [hst1, hg']) (by omega)
          (by rw [u64Mod_eq] at hlt ⊢; simp only [List.length_cons] at hlt; omega) hrr
        constructor
        · rw [← hgens, ih1, hg', List.length_cons, List.range'_succ]
        · rw [← hstf, ih2, List.length_cons]
          omega

/-- C1 (amended): for a stream with no committed generation the
synthesized current superblock is at generation 1 and the returned
generation's `New_SB` number is 2; the committed generation numbers of
`N` successful commits starting from such a stream are exactly
`2, 3, ..., N + 1` in commit order. -/
theorem C1_generation_numbering (st : StorageProvider) (id : UUID)
    (choices : List (LSFn × Nat))
    (h0 : st.GetStreamVersion id = 0)
    (hN : choices.length + 2 < u64Mod)
    (hrun : (runPasses st id choices).isSome = true) :
    (∀ gen, ObtainGeneration st id = Except.ok gen →
        gen.Cur_SB = NewSuperblock id ∧ gen.Cur_SB.gen = 1 ∧ gen.New_SB.gen = 2) ∧
      (runPasses st id choices).map Prod.fst = some (List.range' 2 choices.length) := by
  constructor
  · intro gen hg
    rw [ObtainGeneration_fresh st id h0] at hg
    simp only [Except.ok.injEq] at hg
    subst hg
    refine ⟨rfl, rfl, ?_⟩
    rw [show ((NewSuperblock id).CloneInc).gen = (1 + 1) % u64Mod from rfl, u64Mod_eq]
  · obtain ⟨p, hsome⟩ := Option.isSome_iff_exists.mp hrun
    obtain ⟨gens, stf⟩ := p
    rw [hsome]
    simp only [Option.map_some', Option.some.injEq]
    cases choices with
    | nil =>
      simp only [runPasses, Option.some.injEq, Prod.mk.injEq] at hsome
      rw [← hsome.1]
      simp
    | cons c rest =>
      obtain ⟨ls, ra⟩ := c
      simp only [runPasses] at hsome
      cases hwp : writePass ls ra st id with
      | none => rw [hwp] at hsome; simp at hsome
      | some p' =>
        obtain ⟨g, st1⟩ := p'
        rw [hwp] at hsome
        dsimp only at hsome
        obtain ⟨hg, hst1⟩ := writePass_version ls ra st id g st1 hwp
        rw [if_pos h0] at hg
        have hg2 : g = 2 := by rw [hg, u64Mod_eq]
        cases hrr : runPasses st1 id rest with
        | none => rw [hrr] at hsome; simp at hsome
        | some q =>
          obtain ⟨gens', stf'⟩ := q
          rw [hrr] at hsome
          simp only [Option.some.injEq, Prod.mk.injEq] at hsome
          obtain ⟨hgens, hstf⟩ := hsome
          obtain ⟨ih1, ih2⟩ := runPasses_version id rest st1 2 gens' stf'
            (by rw [hst1, hg2]) (by omega)
            (by rw [u64Mod_eq] at hN ⊢; simp only [List.length_cons] at hN; omega) hrr
          rw [← hgens, ih1, hg2, List.length_cons, List.range'_succ]

/-- C1 counterexample: on a fresh stream the obtained generation's
`New_SB` number is 2, not 1, and a single successful commit commits
generation number 2, not 1. -/
theorem C1_counterexample :
    (ObtainGeneration stEmpty 1).toOption.map (fun g => g.New_SB.gen) = some 2 ∧
      (runPasses stEmpty 1 [(lsW, 0)]).map Prod.fst = some [2] ∧
      ¬ ((2 : Nat) = 1) ∧ ¬ (([2] : List Nat) = [1]) := by
  refine ⟨rfl, rfl, by decide, by decide⟩

/-- C1 witness: three passes on a fresh stream commit generations
`[2, 3, 4] = range' 2 3`. -/
theorem C1_generation_numbering_witness :
    stEmpty.GetStreamVersion 1 = 0 ∧ wChoices.length + 2 < u64Mod ∧
      (runPasses stEmpty 1 wChoices).isSome = true ∧
      ((∀ gen, ObtainGeneration stEmpty 1 = Except.ok gen →
          gen.Cur_SB = NewSuperblock 1 ∧ gen.Cur_SB.gen = 1 ∧ gen.New_SB.gen = 2) ∧
        (runPasses stEmpty 1 wChoices).map Prod.fst = some (List.range' 2 wChoices.length)) :=
  ⟨rfl, by rw [u64Mod_eq]; norm_num [wChoices], rfl,
    C1_generation_numbering stEmpty 1 wChoices rfl
      (by rw [u64Mod_eq]; norm_num [wChoices]) rfl⟩

end BStore
